import Mathlib

/-!
Verification development for the four-stage research pipeline in
`final_production.py`.  Python strings are modelled as `List Char`,
Python floats as `ℚ` (all scoring arithmetic in the program uses small
decimal constants), Python dicts whose keys are only conditionally
present as structures with `Option` fields, and code that can raise as
`Except`-valued functions.  External capabilities (the arXiv client,
the RSS feeds, the GitHub search endpoint, the Gemini model) are
parameters: `none` / an abstract message models a raised exception at
the call site, exactly where the source wraps the call in try/except.
-/

namespace FinalProduction

set_option maxRecDepth 20000

attribute [local semireducible] Rat.mul Rat.add Rat.sub Rat.inv Rat.ofScientific

/-- Python `min` on two numbers. -/
def pyMin (a b : ℚ) : ℚ := if a ≤ b then a else b

/-- Python `max` on two numbers. -/
def pyMax (a b : ℚ) : ℚ := if a ≤ b then b else a

/-- Python `str` modelled as its character sequence. -/
abbrev Str := List Char

/-- Coerce a Lean string literal to the `Str` model. -/
def sToL (s : String) : Str := s.data

/-- Python `pat in s` substring containment on strings. -/
def strContains : Str → Str → Bool
  | s, pat =>
    match s with
    | [] => pat.isEmpty
    | _ :: tl => pat.isPrefixOf (s) || strContains tl pat

/-- Python `str.lower()` (ASCII case mapping suffices for the program's data). -/
def pyLower (s : Str) : Str := s.map Char.toLower

/-- Helper for `pySplitWs`: accumulates the current word (reversed). -/
def pySplitWsAux : Str → Str → List Str
  | [], acc => if acc.isEmpty then [] else [acc.reverse]
  | c :: cs, acc =>
    if c.isWhitespace then
      if acc.isEmpty then pySplitWsAux cs [] else acc.reverse :: pySplitWsAux cs []
    else
      pySplitWsAux cs (c :: acc)

/-- Python `str.split()`: split on whitespace runs, dropping empty words. -/
def pySplitWs (s : Str) : List Str := pySplitWsAux s []

/-- Floor of a rational, written so that the kernel can evaluate it
(`Int` division is Euclidean and the denominator is positive). -/
def ratFloor (x : ℚ) : ℤ := x.num / (x.den : ℤ)

/-- Round-half-to-even to an integer, the rounding used by Python `round`. -/
def roundHalfEven (x : ℚ) : ℤ :=
  let f := ratFloor x
  let r := x - f
  if r < 1/2 then f
  else if 1/2 < r then f + 1
  else if f % 2 = 0 then f else f + 1

/-- Python `round(x, 2)` on the rational model. -/
def pyRound2 (x : ℚ) : ℚ := (roundHalfEven (x * 100) : ℚ) / 100

/-! ### Source records (normalized shapes of fetched items) -/

/-- Raw arXiv result as surfaced by the arxiv client. -/
structure RawPaper where
  title : Str
  authors : List Str
  summary : Str
  published : Str
  entry_id : Str
  categories : List Str
deriving DecidableEq

/-- Paper dict built in `DataAPIs.search_arxiv_papers`. -/
structure Paper where
  title : Str
  authors : List Str
  summary : Str
  published : Str
  url : Str
  categories : List Str
deriving DecidableEq

/-- Feed entry as surfaced by feedparser. -/
structure FeedEntry where
  title : Str
  summary : Str
  published : Str
  link : Str
deriving DecidableEq

/-- News article dict built in `DataAPIs._get_rss_news`. -/
structure NewsItem where
  title : Str
  description : Str
  source : Str
  published : Str
  url : Str
deriving DecidableEq

/-- Raw repository item of the GitHub search response. -/
structure RawRepo where
  full_name : Str
  description : Str
  stargazers_count : Nat
  language : Str
  updated_at : Str
  html_url : Str
deriving DecidableEq

/-- Repository dict built in `DataAPIs.search_github_repos`. -/
structure Repo where
  name : Str
  description : Str
  stars : Nat
  language : Str
  updated : Str
  url : Str
deriving DecidableEq

/-- The `research_data` dict of `_gather_research_data`:
three ordered sequences of fetched records. -/
structure ResearchBundle where
  papers : List Paper
  news : List NewsItem
  github : List Repo
deriving DecidableEq

/-! ### DataAPIs

The external capabilities are parameters.  `none` models the call
raising (the source catches it and degrades to an empty list). -/

/-- External capabilities used by `DataAPIs`:
`arxiv query max_results`, the fixed RSS feed list (feed name paired
with its parse result), and `github query per_page` returning an HTTP
status code and the item list. -/
structure DataAPIsEnv where
  arxiv : Str → Nat → Option (List RawPaper)
  feeds : List (Str × Option (List FeedEntry))
  github : Str → Nat → Option (Nat × List RawRepo)

namespace DataAPIs

/-- `DataAPIs.search_arxiv_papers`: maps each raw result to a paper
dict, with `summary = result.summary[:500] + "..."`; an exception
yields `[]`. -/
def search_arxiv_papers (arxiv : Str → Nat → Option (List RawPaper))
    (query : Str) (max_results : Nat) : List Paper :=
  match arxiv query max_results with
  | none => []
  | some results =>
    results.map fun r =>
      { title := r.title
        authors := r.authors
        summary := r.summary.take 500 ++ sToL "..."
        published := r.published
        url := r.entry_id
        categories := r.categories }

/-- Keyword match of `_get_rss_news`: some lowercased whitespace token
of the query is a substring of the lowercased `"{title} {summary}"`
of the entry. -/
def rssEntryMatches (query : Str) (e : FeedEntry) : Bool :=
  let content := pyLower (e.title ++ sToL " " ++ e.summary)
  (pySplitWs (pyLower query)).any fun keyword => strContains content keyword

/-- `DataAPIs._get_rss_news`: scans the feed list in order; a failing
feed is skipped; matching entries are appended with the description
truncated to 300 characters. -/
def _get_rss_news (feeds : List (Str × Option (List FeedEntry)))
    (query : Str) : List NewsItem :=
  feeds.foldl
    (fun articles feed =>
      match feed.2 with
      | none => articles
      | some entries =>
        articles ++ (entries.filter (rssEntryMatches query)).map fun e =>
          { title := e.title
            description := e.summary.take 300
            source := feed.1
            published := e.published
            url := e.link })
    []

/-- `DataAPIs.search_news` delegates to the RSS scan (`days_back` is
accepted and unused by the body). -/
def search_news (feeds : List (Str × Option (List FeedEntry)))
    (query : Str) (_days_back : Nat) : List NewsItem :=
  _get_rss_news feeds query

/-- `DataAPIs.search_github_repos`: on HTTP 200 maps the fixed field
subset; any other status or a transport error yields `[]`. -/
def search_github_repos (github : Str → Nat → Option (Nat × List RawRepo))
    (query : Str) (max_results : Nat) : List Repo :=
  match github query max_results with
  | none => []
  | some (status, items) =>
    if status = 200 then
      items.map fun r =>
        { name := r.full_name
          description := r.description
          stars := r.stargazers_count
          language := r.language
          updated := r.updated_at
          url := r.html_url }
    else []

end DataAPIs

/-! ### Tasks and stage results -/

/-- Research stage result dict.  Fields that are only set on the
success path are `Option`s (`none` models the key being absent, as on
the error path of `process_task`). -/
structure ResearchResult where
  agent_id : Str
  task_id : Str
  research_data : Option Str
  raw_data_sources : Option ResearchBundle
  confidence_score : Option ℚ
  timestamp : Nat
  processing_time : Option ℚ
  data_sources_count : Option (Nat × Nat × Nat)
  error : Option Str
deriving DecidableEq

/-- Analysis stage result dict. -/
structure AnalysisResult where
  agent_id : Str
  task_id : Str
  analysis_insights : Option Str
  data_quality_score : Option ℚ
  timestamp : Nat
  processing_time : Option ℚ
  error : Option Str
deriving DecidableEq

/-- Innovation stage result dict. -/
structure InnovationResult where
  agent_id : Str
  task_id : Str
  innovation_ideas : Option Str
  breakthrough_potential : Option ℚ
  commercial_viability : Option ℚ
  timestamp : Nat
  processing_time : Option ℚ
  error : Option Str
deriving DecidableEq

/-- Environment stage result dict. -/
structure EnvironmentResult where
  agent_id : Str
  task_id : Str
  management_recommendations : Option Str
  system_health_score : Option ℚ
  optimization_potential : Option ℚ
  timestamp : Nat
  processing_time : Option ℚ
  error : Option Str
deriving DecidableEq

/-- One entry of the `results['stages']` mapping. -/
inductive StageValue where
  | research (r : ResearchResult)
  | analysis (r : AnalysisResult)
  | innovation (r : InnovationResult)
  | environment (r : EnvironmentResult)
deriving DecidableEq

/-- The aggregated `performance_metrics` dict built on the success
path of `execute_workflow` (dict-valued defaults are `Option`s). -/
structure PerformanceMetrics where
  total_processing_time : ℚ
  data_sources_used : Option (Nat × Nat × Nat)
  confidence_score : ℚ
  system_health : ℚ
  workflow_success : Bool
deriving DecidableEq

/-- The `results` dict of `execute_workflow`.  `performance_metrics =
none` models the initial empty dict; the top-level `workflow_success`
and `error` keys are set only on the except path, `workflow_end` only
on the success path. -/
structure WorkflowResult where
  task_id : Str
  title : Str
  workflow_start : Nat
  stages : List (Str × StageValue)
  performance_metrics : Option PerformanceMetrics
  error : Option Str
  workflow_success : Option Bool
  workflow_end : Option Nat
deriving DecidableEq

/-- `ResearchTask` dataclass; `results = none` models the initial
empty dict set by `__post_init__`. -/
structure ResearchTask where
  id : Str
  title : Str
  description : Str
  priority : Int
  status : Str
  created_at : Nat
  results : Option WorkflowResult
deriving DecidableEq

/-! ### ResearchAgent -/

namespace ResearchAgent

/-- `ResearchAgent._extract_search_terms`: ordered first-match-wins
keyword rules over the lowercased `"{title} {description}"`, with a
fallback to the first up-to-3 words of the title longer than 3
characters. -/
def _extract_search_terms (title description : Str) : List Str :=
  let combined_text := pyLower (title ++ sToL " " ++ description)
  if strContains combined_text (sToL "healthcare") || strContains combined_text (sToL "medical") then
    [sToL "artificial intelligence healthcare", sToL "machine learning medicine", sToL "AI diagnosis"]
  else if strContains combined_text (sToL "ai") || strContains combined_text (sToL "artificial intelligence") then
    [sToL "artificial intelligence", sToL "machine learning", sToL "deep learning"]
  else if strContains combined_text (sToL "generative") || strContains combined_text (sToL "gpt") then
    [sToL "generative ai", sToL "gpt", sToL "transformer models"]
  else if strContains combined_text (sToL "blockchain") || strContains combined_text (sToL "crypto") then
    [sToL "blockchain technology", sToL "cryptocurrency", sToL "decentralized finance"]
  else if strContains combined_text (sToL "sustainability") || strContains combined_text (sToL "climate") then
    [sToL "sustainability technology", sToL "climate change AI", sToL "green technology"]
  else if strContains combined_text (sToL "robotics") || strContains combined_text (sToL "automation") then
    [sToL "robotics technology", sToL "automation systems", sToL "AI robotics"]
  else if strContains combined_text (sToL "finance") || strContains combined_text (sToL "investment") then
    [sToL "financial technology", sToL "investment strategies", sToL "AI in finance"]
  else if strContains combined_text (sToL "education") || strContains combined_text (sToL "learning") then
    [sToL "educational technology", sToL "AI in education", sToL "personalized learning"]
  else if strContains combined_text (sToL "energy") || strContains combined_text (sToL "renewable") then
    [sToL "renewable energy technology", sToL "solar power AI", sToL "wind energy systems"]
  else if strContains combined_text (sToL "cybersecurity") || strContains combined_text (sToL "security") then
    [sToL "cybersecurity AI", sToL "threat detection", sToL "security automation"]
  else if strContains combined_text (sToL "transportation") || strContains combined_text (sToL "mobility") then
    [sToL "transportation technology", sToL "autonomous vehicles", sToL "smart mobility"]
  else if strContains combined_text (sToL "agriculture") || strContains combined_text (sToL "farming") then
    [sToL "agricultural technology", sToL "precision farming AI", sToL "smart agriculture"]
  else if strContains combined_text (sToL "entertainment") || strContains combined_text (sToL "media") then
    [sToL "entertainment technology", sToL "media AI", sToL "content creation tools"]
  else if strContains combined_text (sToL "gaming") || strContains combined_text (sToL "game") then
    [sToL "gaming technology", sToL "game AI", sToL "interactive entertainment"]
  else if strContains combined_text (sToL "smart home") || strContains combined_text (sToL "iot") then
    [sToL "smart home technology", sToL "IoT devices", sToL "home automation"]
  else if strContains combined_text (sToL "supply chain") || strContains combined_text (sToL "logistics") then
    [sToL "supply chain technology", sToL "logistics AI", sToL "smart logistics"]
  else if strContains combined_text (sToL "social media") || strContains combined_text (sToL "communication") then
    [sToL "social media technology", sToL "communication AI", sToL "digital marketing tools"]
  else
    ((pySplitWs title).filter fun word => 3 < word.length).take 3

/-- `ResearchAgent._gather_research_data`.  The paper loop runs over
all derived terms; news and GitHub use `search_terms[0]`, which raises
an IndexError (modelled as `Except.error`) when the derived term list
is empty. -/
def _gather_research_data (env : DataAPIsEnv) (title description : Str) :
    Except Str ResearchBundle :=
  let search_terms := _extract_search_terms title description
  let papers := search_terms.foldl
    (fun acc term => acc ++ DataAPIs.search_arxiv_papers env.arxiv term 5) []
  match search_terms with
  | [] => .error (sToL "list index out of range")
  | term0 :: _ =>
    .ok { papers := papers
          news := DataAPIs.search_news env.feeds term0 14
          github := DataAPIs.search_github_repos env.github term0 8 }

/-- `ResearchAgent._calculate_confidence`: counts the non-empty source
types and the items they contribute, then
`min(sources*0.25, 0.75) + min(total_items*0.01, 0.25)` clamped to 1. -/
def _calculate_confidence (data : ResearchBundle) : ℚ :=
  let sources : Nat :=
    (if data.papers ≠ [] then 1 else 0) +
    (if data.news ≠ [] then 1 else 0) +
    (if data.github ≠ [] then 1 else 0)
  let total_items : Nat :=
    (if data.papers ≠ [] then data.papers.length else 0) +
    (if data.news ≠ [] then data.news.length else 0) +
    (if data.github ≠ [] then data.github.length else 0)
  let base_confidence := pyMin ((sources : ℚ) * 0.25) 0.75
  let volume_bonus := pyMin ((total_items : ℚ) * 0.01) 0.25
  pyMin (base_confidence + volume_bonus) 1

/-- Dynamic inputs interpolated into the research prompt (the prompt
embeds the first 3 papers, all news, and the first 3 repositories). -/
structure PromptData where
  title : Str
  description : Str
  papersPreview : List Paper
  news : List NewsItem
  githubPreview : List Repo

/-- `ResearchAgent.process_task`.  `timestamp` and `elapsed` stand for
the wall-clock readings; an exception from the try block (the
`search_terms[0]` IndexError of `_gather_research_data`) produces the
four-field error dict. -/
def process_task (env : DataAPIsEnv) (llm : PromptData → Str)
    (timestamp : Nat) (elapsed : ℚ) (task : ResearchTask) : ResearchResult :=
  match _gather_research_data env task.title task.description with
  | .error e =>
    { agent_id := sToL "research_agent"
      task_id := task.id
      research_data := none
      raw_data_sources := none
      confidence_score := none
      timestamp := timestamp
      processing_time := none
      data_sources_count := none
      error := some e }
  | .ok research_data =>
    let analysis := llm
      { title := task.title
        description := task.description
        papersPreview := research_data.papers.take 3
        news := research_data.news
        githubPreview := research_data.github.take 3 }
    { agent_id := sToL "research_agent"
      task_id := task.id
      research_data := some analysis
      raw_data_sources := some research_data
      confidence_score := some (_calculate_confidence research_data)
      timestamp := timestamp
      processing_time := some elapsed
      data_sources_count := some
        (research_data.papers.length, research_data.news.length, research_data.github.length)
      error := none }

end ResearchAgent

/-! ### AnalysisAgent -/

/-- The `analysis_context` dict built in `execute_workflow`
(lines 730-734); all three keys are always present there. -/
structure AnalysisContext where
  research_data : Str
  raw_data_sources : ResearchBundle
  data_quality_score : ℚ
deriving DecidableEq

namespace AnalysisAgent

/-- `AnalysisAgent._assess_data_quality`:
`min(0.1*papers,0.4) + min(0.05*news,0.3) + min(0.03*github,0.3)`
accumulated only for non-empty lists, clamped to 1. -/
def _assess_data_quality (raw_data : ResearchBundle) : ℚ :=
  let q1 : ℚ :=
    if raw_data.papers ≠ [] then pyMin ((raw_data.papers.length : ℚ) * 0.1) 0.4 else 0
  let q2 : ℚ :=
    q1 + (if raw_data.news ≠ [] then pyMin ((raw_data.news.length : ℚ) * 0.05) 0.3 else 0)
  let quality_score :=
    q2 + (if raw_data.github ≠ [] then pyMin ((raw_data.github.length : ℚ) * 0.03) 0.3 else 0)
  pyMin quality_score 1

/-- Dynamic inputs interpolated into the analysis prompt (the raw
bundle enters only through its three counts). -/
structure PromptData where
  research_data : Str
  paperCount : Nat
  newsCount : Nat
  repoCount : Nat

/-- `AnalysisAgent.process_task`.  `exc` models an exception raised
inside the try block (`some e` carries `str(e)`); the context defaults
mirror `context.get(..., default) if context else default`. -/
def process_task (llm : PromptData → Str) (exc : Option Str)
    (timestamp : Nat) (elapsed : ℚ) (task : ResearchTask)
    (context : Option AnalysisContext) : AnalysisResult :=
  match exc with
  | some e =>
    { agent_id := sToL "analysis_agent"
      task_id := task.id
      analysis_insights := none
      data_quality_score := none
      timestamp := timestamp
      processing_time := none
      error := some e }
  | none =>
    let research_data := match context with
      | none => []
      | some c => c.research_data
    let raw_data := match context with
      | none => ResearchBundle.mk [] [] []
      | some c => c.raw_data_sources
    let analysis := llm
      { research_data := research_data
        paperCount := raw_data.papers.length
        newsCount := raw_data.news.length
        repoCount := raw_data.github.length }
    { agent_id := sToL "analysis_agent"
      task_id := task.id
      analysis_insights := some analysis
      data_quality_score := some (_assess_data_quality raw_data)
      timestamp := timestamp
      processing_time := some elapsed
      error := none }

end AnalysisAgent

/-! ### InnovationAgent -/

/-- The `innovation_context` dict built in `execute_workflow`
(lines 740-743). -/
structure InnovationContext where
  research_data : Str
  analysis_insights : Str
deriving DecidableEq

namespace InnovationAgent

/-- Dynamic inputs interpolated into the innovation prompt. -/
structure PromptData where
  research_data : Str
  analysis_insights : Str

/-- `InnovationAgent.process_task`: fixed constant scores 0.85 and
0.78 on the success path. -/
def process_task (llm : PromptData → Str) (exc : Option Str)
    (timestamp : Nat) (elapsed : ℚ) (task : ResearchTask)
    (context : Option InnovationContext) : InnovationResult :=
  match exc with
  | some e =>
    { agent_id := sToL "innovation_agent"
      task_id := task.id
      innovation_ideas := none
      breakthrough_potential := none
      commercial_viability := none
      timestamp := timestamp
      processing_time := none
      error := some e }
  | none =>
    let research_data := match context with
      | none => []
      | some c => c.research_data
    let analysis_insights := match context with
      | none => []
      | some c => c.analysis_insights
    let innovation_ideas := llm
      { research_data := research_data, analysis_insights := analysis_insights }
    { agent_id := sToL "innovation_agent"
      task_id := task.id
      innovation_ideas := some innovation_ideas
      breakthrough_potential := some 0.85
      commercial_viability := some 0.78
      timestamp := timestamp
      processing_time := some elapsed
      error := none }

end InnovationAgent

/-! ### EnvironmentAgent -/

/-- The `env_context` dict built in `execute_workflow` (lines
749-753): the three prior stage results.  The `data_quality_score`
field models a possible extra key looked up by
`_gather_system_metrics`; the workflow never sets it (`none`). -/
structure EnvContext where
  research : Option ResearchResult
  analysis : Option AnalysisResult
  innovation : Option InnovationResult
  data_quality_score : Option ℚ
deriving DecidableEq

/-- The `performance_data` dict returned by `_gather_system_metrics`. -/
structure SystemMetrics where
  health_score : ℚ
  optimization_score : ℚ
  response_times : ℚ × ℚ × ℚ
  data_quality : ℚ
  api_success_rate : ℚ
  resource_utilization : ℚ
  total_processing_time : ℚ
  error_count : Nat
deriving DecidableEq

namespace EnvironmentAgent

/-- Python truthiness of a stage result's `error` value: counted only
when present and a non-empty string. -/
def errTruthy : Option Str → Bool
  | some (_ :: _) => true
  | _ => false

/-- The `response_times` dict of `_gather_system_metrics`:
`context.get(stage, {}).get('processing_time', 0) if context else 0`
for research, analysis, innovation. -/
def response_times_of (context : Option EnvContext) : ℚ × ℚ × ℚ :=
  match context with
  | none => (0, 0, 0)
  | some c =>
    ((match c.research with | none => 0 | some r => r.processing_time.getD 0),
     (match c.analysis with | none => 0 | some r => r.processing_time.getD 0),
     (match c.innovation with | none => 0 | some r => r.processing_time.getD 0))

/-- `total_time = sum(response_times.values())`. -/
def total_time_of (context : Option EnvContext) : ℚ :=
  let rt := response_times_of context
  rt.1 + rt.2.1 + rt.2.2

/-- The error counting loop of `_gather_system_metrics`:
`if context.get(stage, {}).get('error'):` for the three prior stages. -/
def error_count_of (context : Option EnvContext) : Nat :=
  match context with
  | none => 0
  | some c =>
    (if errTruthy ((c.research.map (·.error)).getD none) then 1 else 0) +
    (if errTruthy ((c.analysis.map (·.error)).getD none) then 1 else 0) +
    (if errTruthy ((c.innovation.map (·.error)).getD none) then 1 else 0)

/-- `data_quality = context.get('data_quality_score', 0.8) if context
else 0.8`. -/
def data_quality_of (context : Option EnvContext) : ℚ :=
  match context with
  | none => 0.8
  | some c => c.data_quality_score.getD 0.8

/-- `api_successes`: counts the non-empty source lists of the research
stage's `raw_data_sources` when that key is present (the bundle dict
itself is always truthy). -/
def api_successes_of (context : Option EnvContext) : Nat :=
  match context with
  | none => 0
  | some c =>
    match c.research with
    | none => 0
    | some r =>
      match r.raw_data_sources with
      | none => 0
      | some raw_data =>
        (if raw_data.papers ≠ [] then 1 else 0) +
        (if raw_data.news ≠ [] then 1 else 0) +
        (if raw_data.github ≠ [] then 1 else 0)

/-- `EnvironmentAgent._gather_system_metrics`. -/
def _gather_system_metrics (context : Option EnvContext) : SystemMetrics :=
  let response_times := response_times_of context
  let total_time := total_time_of context
  let base_health : ℚ := if 60 < total_time then 1 - (total_time - 60) * 0.01 else 1
  let error_count := error_count_of context
  let health_score := pyMax (base_health - (error_count : ℚ) * 0.1) 0.5
  let data_quality := data_quality_of context
  let optimization_score := pyMin (data_quality + 0.1) 1
  let api_successes := api_successes_of context
  let api_success_rate : ℚ := (api_successes : ℚ) / 3
  let actual_time : ℚ := if 0 < total_time then total_time else 45
  let resource_utilization := pyMin (45 / actual_time) 1
  { health_score := pyRound2 health_score
    optimization_score := pyRound2 optimization_score
    response_times := response_times
    data_quality := data_quality
    api_success_rate := pyRound2 api_success_rate
    resource_utilization := pyRound2 resource_utilization
    total_processing_time := total_time
    error_count := error_count }

/-- Dynamic inputs interpolated into the environment prompt. -/
structure PromptData where
  performance_data : SystemMetrics
  title : Str

/-- `EnvironmentAgent.process_task`. -/
def process_task (llm : PromptData → Str) (exc : Option Str)
    (timestamp : Nat) (elapsed : ℚ) (task : ResearchTask)
    (context : Option EnvContext) : EnvironmentResult :=
  match exc with
  | some e =>
    { agent_id := sToL "environment_agent"
      task_id := task.id
      management_recommendations := none
      system_health_score := none
      optimization_potential := none
      timestamp := timestamp
      processing_time := none
      error := some e }
  | none =>
    let performance_data := _gather_system_metrics context
    let recommendations := llm { performance_data := performance_data, title := task.title }
    { agent_id := sToL "environment_agent"
      task_id := task.id
      management_recommendations := some recommendations
      system_health_score := some performance_data.health_score
      optimization_potential := some performance_data.optimization_score
      timestamp := timestamp
      processing_time := some elapsed
      error := none }

end EnvironmentAgent

/-! ### ProductionEcosystem (orchestrator) -/

/-- All inputs of one workflow execution that come from outside the
orchestration logic: the data-source capabilities, the four Gemini
responses, the abstract exception injections for the agents whose try
blocks have no concrete raise point in the model, and the wall-clock
readings. -/
structure AgentParams where
  dataEnv : DataAPIsEnv
  llmR : ResearchAgent.PromptData → Str
  llmA : AnalysisAgent.PromptData → Str
  llmI : InnovationAgent.PromptData → Str
  llmE : EnvironmentAgent.PromptData → Str
  excA : Option Str
  excI : Option Str
  excE : Option Str
  tsR : Nat
  tsA : Nat
  tsI : Nat
  tsE : Nat
  elR : ℚ
  elA : ℚ
  elI : ℚ
  elE : ℚ
  totalTime : ℚ

/-- The four fixed stages, used to name the point at which an
orchestration-level exception is injected. -/
inductive WorkflowStage where
  | research
  | analysis
  | innovation
  | environment
deriving DecidableEq

/-- Result of `execute_workflow` together with the post-call state:
the (possibly mutated) task, the completed-task history, and the
database rows. -/
structure WorkflowOutcome where
  results : WorkflowResult
  task : ResearchTask
  completed_tasks : List ResearchTask
  db : List (Str × WorkflowResult)
deriving DecidableEq

namespace ProductionEcosystem

/-- `ProductionEcosystem.create_task`: id derived from the coarse
time value, status pending, empty results. -/
def create_task (now : Nat) (title description : Str) : ResearchTask :=
  { id := sToL "task_" ++ Nat.toDigits 10 now
    title := title
    description := description
    priority := 1
    status := sToL "pending"
    created_at := now
    results := none }

/-- The `analysis_context` built at lines 730-734 of
`execute_workflow`: depends only on the research stage result. -/
def analysisContextOf (research_result : ResearchResult) : AnalysisContext :=
  { research_data := research_result.research_data.getD []
    raw_data_sources := research_result.raw_data_sources.getD (ResearchBundle.mk [] [] [])
    data_quality_score := research_result.confidence_score.getD 0.8 }

/-- The `innovation_context` built at lines 740-743: depends only on
the research and analysis stage results. -/
def innovationContextOf (research_result : ResearchResult)
    (analysis_result : AnalysisResult) : InnovationContext :=
  { research_data := research_result.research_data.getD []
    analysis_insights := analysis_result.analysis_insights.getD [] }

/-- The `env_context` built at lines 749-753: the three prior stage
results; no `data_quality_score` key is placed in it. -/
def envContextOf (research_result : ResearchResult)
    (analysis_result : AnalysisResult)
    (innovation_result : InnovationResult) : EnvContext :=
  { research := some research_result
    analysis := some analysis_result
    innovation := some innovation_result
    data_quality_score := none }

/-- The research stage call of `execute_workflow`. -/
def researchResultOf (ap : AgentParams) (task : ResearchTask) : ResearchResult :=
  ResearchAgent.process_task ap.dataEnv ap.llmR ap.tsR ap.elR task

/-- The analysis stage call of `execute_workflow`. -/
def analysisResultOf (ap : AgentParams) (task : ResearchTask) : AnalysisResult :=
  AnalysisAgent.process_task ap.llmA ap.excA ap.tsA ap.elA task
    (some (analysisContextOf (researchResultOf ap task)))

/-- The innovation stage call of `execute_workflow`. -/
def innovationResultOf (ap : AgentParams) (task : ResearchTask) : InnovationResult :=
  InnovationAgent.process_task ap.llmI ap.excI ap.tsI ap.elI task
    (some (innovationContextOf (researchResultOf ap task) (analysisResultOf ap task)))

/-- The environment stage call of `execute_workflow`. -/
def environmentResultOf (ap : AgentParams) (task : ResearchTask) : EnvironmentResult :=
  EnvironmentAgent.process_task ap.llmE ap.excE ap.tsE ap.elE task
    (some (envContextOf (researchResultOf ap task) (analysisResultOf ap task)
      (innovationResultOf ap task)))

/-- The except branch of `execute_workflow`: attaches the error string
and `workflow_success = False` to the results accumulated so far and
returns without touching the task, the history, or the database. -/
def failOutcome (resultsSoFar : WorkflowResult) (e : Str) (task : ResearchTask)
    (completed : List ResearchTask) (db : List (Str × WorkflowResult)) :
    WorkflowOutcome :=
  { results := { resultsSoFar with error := some e, workflow_success := some false }
    task := task
    completed_tasks := completed
    db := db }

/-- `ProductionEcosystem.execute_workflow`.  `orchExc = some (s, e)`
injects an uncaught orchestration-level exception raised just before
stage `s` runs; `saveOk = false` models `_save_results` swallowing a
database error.  The database row is inserted before `workflow_end` is
set, while the mutated task aliases the final results dict. -/
def execute_workflow (ap : AgentParams) (orchExc : Option (WorkflowStage × Str))
    (saveOk : Bool) (wfStartTs wfEndTs : Nat) (task : ResearchTask)
    (completed : List ResearchTask) (db : List (Str × WorkflowResult)) :
    WorkflowOutcome :=
  let results0 : WorkflowResult :=
    { task_id := task.id
      title := task.title
      workflow_start := wfStartTs
      stages := []
      performance_metrics := none
      error := none
      workflow_success := none
      workflow_end := none }
  match orchExc with
  | some (.research, e) => failOutcome results0 e task completed db
  | some (.analysis, e) =>
    let research_result := researchResultOf ap task
    failOutcome
      { results0 with stages := [(sToL "research", .research research_result)] }
      e task completed db
  | some (.innovation, e) =>
    let research_result := researchResultOf ap task
    let analysis_result := analysisResultOf ap task
    failOutcome
      { results0 with stages :=
          [(sToL "research", .research research_result),
           (sToL "analysis", .analysis analysis_result)] }
      e task completed db
  | some (.environment, e) =>
    let research_result := researchResultOf ap task
    let analysis_result := analysisResultOf ap task
    let innovation_result := innovationResultOf ap task
    failOutcome
      { results0 with stages :=
          [(sToL "research", .research research_result),
           (sToL "analysis", .analysis analysis_result),
           (sToL "innovation", .innovation innovation_result)] }
      e task completed db
  | none =>
    let research_result := researchResultOf ap task
    let analysis_result := analysisResultOf ap task
    let innovation_result := innovationResultOf ap task
    let environment_result := environmentResultOf ap task
    let performance : PerformanceMetrics :=
      { total_processing_time := ap.totalTime
        data_sources_used := research_result.data_sources_count
        confidence_score := research_result.confidence_score.getD 0.8
        system_health := environment_result.system_health_score.getD 0.96
        workflow_success := true }
    let resultsSaved : WorkflowResult :=
      { results0 with
          stages :=
            [(sToL "research", .research research_result),
             (sToL "analysis", .analysis analysis_result),
             (sToL "innovation", .innovation innovation_result),
             (sToL "environment", .environment environment_result)]
          performance_metrics := some performance }
    let resultsFinal := { resultsSaved with workflow_end := some wfEndTs }
    let taskDone := { task with status := sToL "completed", results := some resultsFinal }
    { results := resultsFinal
      task := taskDone
      completed_tasks := completed ++ [taskDone]
      db := if saveOk then db ++ [(task.id, resultsSaved)] else db }

end ProductionEcosystem

/-! ### Stage lookup helpers -/

/-- First research stage result in a stages mapping. -/
def findResearch : List (Str × StageValue) → Option ResearchResult
  | [] => none
  | (_, .research r) :: _ => some r
  | _ :: rest => findResearch rest

/-- First analysis stage result in a stages mapping. -/
def findAnalysis : List (Str × StageValue) → Option AnalysisResult
  | [] => none
  | (_, .analysis r) :: _ => some r
  | _ :: rest => findAnalysis rest

/-- First innovation stage result in a stages mapping. -/
def findInnovation : List (Str × StageValue) → Option InnovationResult
  | [] => none
  | (_, .innovation r) :: _ => some r
  | _ :: rest => findInnovation rest

/-- First environment stage result in a stages mapping. -/
def findEnvironment : List (Str × StageValue) → Option EnvironmentResult
  | [] => none
  | (_, .environment r) :: _ => some r
  | _ :: rest => findEnvironment rest

/-! ### Arithmetic helper lemmas -/

theorem pyMin_eq (a b : ℚ) : pyMin a b = min a b := (min_def a b).symm

theorem pyMax_eq (a b : ℚ) : pyMax a b = max a b := (max_def a b).symm

theorem ratFloor_eq (x : ℚ) : ratFloor x = Int.floor x := Rat.floor_def.symm

theorem roundHalfEven_le (x : ℚ) (n : ℤ) (h : x ≤ (n : ℚ)) : roundHalfEven x ≤ n := by
  unfold roundHalfEven
  rw [ratFloor_eq]
  dsimp only
  have hfx : ((Int.floor x : ℤ) : ℚ) ≤ x := Int.floor_le x
  have hfn : Int.floor x ≤ n := by
    have := Int.floor_le_floor h
    rwa [Int.floor_intCast] at this
  split_ifs with h1 h2 h3
  · exact hfn
  · have hx : ((Int.floor x : ℤ) : ℚ) + 1/2 ≤ x := by push_neg at h1; linarith
    have : ((Int.floor x : ℤ) : ℚ) < (n : ℚ) := by linarith
    have : Int.floor x < n := by exact_mod_cast this
    omega
  · exact hfn
  · have hx : ((Int.floor x : ℤ) : ℚ) + 1/2 ≤ x := by push_neg at h1; linarith
    have : ((Int.floor x : ℤ) : ℚ) < (n : ℚ) := by linarith
    have : Int.floor x < n := by exact_mod_cast this
    omega

theorem le_roundHalfEven (x : ℚ) (n : ℤ) (h : (n : ℚ) ≤ x) : n ≤ roundHalfEven x := by
  unfold roundHalfEven
  rw [ratFloor_eq]
  dsimp only
  have hfn : n ≤ Int.floor x := Int.le_floor.mpr h
  split_ifs with h1 h2 h3
  · exact hfn
  · omega
  · exact hfn
  · omega

theorem pyRound2_le (x : ℚ) (n : ℤ) (h : x ≤ (n : ℚ) / 100) : pyRound2 x ≤ (n : ℚ) / 100 := by
  unfold pyRound2
  have h100 : x * 100 ≤ (n : ℚ) := by linarith
  have hr := roundHalfEven_le (x * 100) n h100
  have : ((roundHalfEven (x * 100) : ℤ) : ℚ) ≤ (n : ℚ) := by exact_mod_cast hr
  linarith

theorem le_pyRound2 (x : ℚ) (n : ℤ) (h : (n : ℚ) / 100 ≤ x) : (n : ℚ) / 100 ≤ pyRound2 x := by
  unfold pyRound2
  have h100 : (n : ℚ) ≤ x * 100 := by linarith
  have hr := le_roundHalfEven (x * 100) n h100
  have : (n : ℚ) ≤ ((roundHalfEven (x * 100) : ℤ) : ℚ) := by exact_mod_cast hr
  linarith

theorem pyRound2_mem_unit (x : ℚ) (h0 : 0 ≤ x) (h1 : x ≤ 1) :
    0 ≤ pyRound2 x ∧ pyRound2 x ≤ 1 := by
  constructor
  · have := le_pyRound2 x 0 (by push_cast; linarith)
    simpa using this
  · have := pyRound2_le x 100 (by push_cast; linarith)
    simpa using this

/-! ### Bounds of the heuristic scores -/

theorem calculate_confidence_bounds (data : ResearchBundle) :
    0 ≤ ResearchAgent._calculate_confidence data ∧
      ResearchAgent._calculate_confidence data ≤ 1 := by
  unfold ResearchAgent._calculate_confidence
  dsimp only
  rw [pyMin_eq, pyMin_eq, pyMin_eq]
  constructor
  · apply le_min _ (by norm_num)
    apply add_nonneg
    · apply le_min (by positivity) (by norm_num)
    · apply le_min (by positivity) (by norm_num)
  · exact min_le_right _ _

theorem assess_data_quality_bounds (raw_data : ResearchBundle) :
    0 ≤ AnalysisAgent._assess_data_quality raw_data ∧
      AnalysisAgent._assess_data_quality raw_data ≤ 1 := by
  unfold AnalysisAgent._assess_data_quality
  dsimp only
  rw [pyMin_eq]
  constructor
  · apply le_min _ (by norm_num)
    apply add_nonneg
    apply add_nonneg
    · split_ifs
      · rw [pyMin_eq]; exact le_min (by positivity) (by norm_num)
      · exact le_refl 0
    · split_ifs
      · rw [pyMin_eq]; exact le_min (by positivity) (by norm_num)
      · exact le_refl 0
    · split_ifs
      · rw [pyMin_eq]; exact le_min (by positivity) (by norm_num)
      · exact le_refl 0
  · exact min_le_right _ _

theorem health_score_bounds (context : Option EnvContext) :
    0 ≤ (EnvironmentAgent._gather_system_metrics context).health_score ∧
      (EnvironmentAgent._gather_system_metrics context).health_score ≤ 1 := by
  unfold EnvironmentAgent._gather_system_metrics
  dsimp only
  apply pyRound2_mem_unit
  · rw [pyMax_eq]
    have h05 : (0 : ℚ) ≤ 0.5 := by norm_num
    exact le_trans h05 (le_max_right _ _)
  · rw [pyMax_eq]
    apply max_le _ (by norm_num)
    have he : (0 : ℚ) ≤ (EnvironmentAgent.error_count_of context : ℚ) * 0.1 := by positivity
    split_ifs with h
    · have hp : (0 : ℚ) ≤ (EnvironmentAgent.total_time_of context - 60) * 0.01 :=
        mul_nonneg (by linarith) (by norm_num)
      linarith
    · linarith

theorem optimization_score_bounds (context : Option EnvContext)
    (hdq : 0 ≤ EnvironmentAgent.data_quality_of context) :
    0 ≤ (EnvironmentAgent._gather_system_metrics context).optimization_score ∧
      (EnvironmentAgent._gather_system_metrics context).optimization_score ≤ 1 := by
  unfold EnvironmentAgent._gather_system_metrics
  dsimp only
  apply pyRound2_mem_unit
  · rw [pyMin_eq]
    apply le_min (by linarith) (by norm_num)
  · rw [pyMin_eq]
    exact min_le_right _ _

theorem resource_utilization_bounds (context : Option EnvContext) :
    0 ≤ (EnvironmentAgent._gather_system_metrics context).resource_utilization ∧
      (EnvironmentAgent._gather_system_metrics context).resource_utilization ≤ 1 := by
  unfold EnvironmentAgent._gather_system_metrics
  dsimp only
  apply pyRound2_mem_unit
  · rw [pyMin_eq]
    apply le_min _ (by norm_num)
    split_ifs with h
    · positivity
    · norm_num
  · rw [pyMin_eq]
    exact min_le_right _ _

theorem api_successes_le_three (context : Option EnvContext) :
    EnvironmentAgent.api_successes_of context ≤ 3 := by
  unfold EnvironmentAgent.api_successes_of
  rcases context with _ | c
  · simp
  dsimp only
  cases hr : c.research with
  | none => simp
  | some r =>
    dsimp only
    cases hrd : r.raw_data_sources with
    | none => simp
    | some raw => dsimp only; split_ifs <;> omega

theorem api_success_rate_bounds (context : Option EnvContext) :
    0 ≤ (EnvironmentAgent._gather_system_metrics context).api_success_rate ∧
      (EnvironmentAgent._gather_system_metrics context).api_success_rate ≤ 1 := by
  unfold EnvironmentAgent._gather_system_metrics
  dsimp only
  apply pyRound2_mem_unit
  · positivity
  · have h3 := api_successes_le_three context
    have : ((EnvironmentAgent.api_successes_of context : ℚ)) ≤ 3 := by exact_mod_cast h3
    rw [div_le_one (by norm_num)]
    linarith

/-! ### Scores of stage results lie in the unit interval -/

/-- Checks that a possibly-absent score lies in `[0, 1]`. -/
def unitIntervalB (o : Option ℚ) : Bool :=
  o.all fun q => decide (0 ≤ q) && decide (q ≤ 1)

theorem unitIntervalB_some {q : ℚ} (h0 : 0 ≤ q) (h1 : q ≤ 1) :
    unitIntervalB (some q) = true := by
  simp [unitIntervalB, h0, h1]

theorem research_confidence_unit (env : DataAPIsEnv)
    (llm : ResearchAgent.PromptData → Str) (ts : Nat) (el : ℚ) (task : ResearchTask) :
    unitIntervalB (ResearchAgent.process_task env llm ts el task).confidence_score = true := by
  unfold ResearchAgent.process_task
  cases h : ResearchAgent._gather_research_data env task.title task.description with
  | error e => rfl
  | ok b =>
    dsimp only
    exact unitIntervalB_some (calculate_confidence_bounds b).1 (calculate_confidence_bounds b).2

theorem analysis_dq_unit (llm : AnalysisAgent.PromptData → Str) (exc : Option Str)
    (ts : Nat) (el : ℚ) (task : ResearchTask) (ctx : Option AnalysisContext) :
    unitIntervalB (AnalysisAgent.process_task llm exc ts el task ctx).data_quality_score = true := by
  unfold AnalysisAgent.process_task
  cases exc with
  | some e => rfl
  | none =>
    dsimp only
    exact unitIntervalB_some (assess_data_quality_bounds _).1 (assess_data_quality_bounds _).2

theorem environment_scores_unit (llm : EnvironmentAgent.PromptData → Str) (exc : Option Str)
    (ts : Nat) (el : ℚ) (task : ResearchTask) (r : ResearchResult) (a : AnalysisResult)
    (i : InnovationResult) :
    unitIntervalB (EnvironmentAgent.process_task llm exc ts el task
        (some (ProductionEcosystem.envContextOf r a i))).system_health_score = true ∧
    unitIntervalB (EnvironmentAgent.process_task llm exc ts el task
        (some (ProductionEcosystem.envContextOf r a i))).optimization_potential = true := by
  unfold EnvironmentAgent.process_task
  cases exc with
  | some e => exact ⟨rfl, rfl⟩
  | none =>
    dsimp only
    have hdq : EnvironmentAgent.data_quality_of
        (some (ProductionEcosystem.envContextOf r a i)) = 0.8 := rfl
    refine ⟨unitIntervalB_some (health_score_bounds _).1 (health_score_bounds _).2, ?_⟩
    have hopt := optimization_score_bounds (some (ProductionEcosystem.envContextOf r a i))
      (by rw [hdq]; norm_num)
    exact unitIntervalB_some hopt.1 hopt.2

/-- The metrics the Environment stage computes from a stages mapping
holding the three prior results, rebuilt with the workflow's own
context constructor. -/
def envMetricsOfStages (st : List (Str × StageValue)) : Option SystemMetrics :=
  match findResearch st, findAnalysis st, findInnovation st with
  | some r, some a, some i =>
    some (EnvironmentAgent._gather_system_metrics
      (some (ProductionEcosystem.envContextOf r a i)))
  | _, _, _ => none

theorem metrics_unit_of_stages (st : List (Str × StageValue)) :
    unitIntervalB ((envMetricsOfStages st).map (fun m => m.resource_utilization)) = true ∧
    unitIntervalB ((envMetricsOfStages st).map (fun m => m.api_success_rate)) = true := by
  unfold envMetricsOfStages
  cases hr : findResearch st with
  | none => exact ⟨rfl, rfl⟩
  | some r =>
    cases ha : findAnalysis st with
    | none => exact ⟨rfl, rfl⟩
    | some a =>
      cases hi : findInnovation st with
      | none => exact ⟨rfl, rfl⟩
      | some i =>
        dsimp only [Option.map]
        constructor
        · exact unitIntervalB_some (resource_utilization_bounds _).1
            (resource_utilization_bounds _).2
        · exact unitIntervalB_some (api_success_rate_bounds _).1 (api_success_rate_bounds _).2

/-- C1: in every workflow execution, each of the six heuristic scores
the pipeline computes — the Research confidence, the Analysis data
quality, the Environment health, optimization, resource utilization
and api success rate — lies in the closed interval from 0 to 1. -/
theorem pipeline_scores_unit_interval (ap : AgentParams)
    (orchExc : Option (WorkflowStage × Str)) (saveOk : Bool) (wfS wfE : Nat)
    (task : ResearchTask) (completed : List ResearchTask)
    (db : List (Str × WorkflowResult)) :
    unitIntervalB ((findResearch (ProductionEcosystem.execute_workflow ap orchExc saveOk
        wfS wfE task completed db).results.stages).bind
      (fun r => r.confidence_score)) = true ∧
    unitIntervalB ((findAnalysis (ProductionEcosystem.execute_workflow ap orchExc saveOk
        wfS wfE task completed db).results.stages).bind
      (fun r => r.data_quality_score)) = true ∧
    unitIntervalB ((findEnvironment (ProductionEcosystem.execute_workflow ap orchExc saveOk
        wfS wfE task completed db).results.stages).bind
      (fun r => r.system_health_score)) = true ∧
    unitIntervalB ((findEnvironment (ProductionEcosystem.execute_workflow ap orchExc saveOk
        wfS wfE task completed db).results.stages).bind
      (fun r => r.optimization_potential)) = true ∧
    unitIntervalB ((envMetricsOfStages (ProductionEcosystem.execute_workflow ap orchExc saveOk
        wfS wfE task completed db).results.stages).map
      (fun m => m.resource_utilization)) = true ∧
    unitIntervalB ((envMetricsOfStages (ProductionEcosystem.execute_workflow ap orchExc saveOk
        wfS wfE task completed db).results.stages).map
      (fun m => m.api_success_rate)) = true := by
  rcases orchExc with _ | ⟨k, e⟩
  · simp only [ProductionEcosystem.execute_workflow]
    dsimp only [findResearch, findAnalysis, findInnovation, findEnvironment, Option.bind]
    refine ⟨?_, ?_, ?_, ?_, ?_, ?_⟩
    · exact research_confidence_unit ap.dataEnv ap.llmR ap.tsR ap.elR task
    · exact analysis_dq_unit ap.llmA ap.excA ap.tsA ap.elA task _
    · exact (environment_scores_unit ap.llmE ap.excE ap.tsE ap.elE task _ _ _).1
    · exact (environment_scores_unit ap.llmE ap.excE ap.tsE ap.elE task _ _ _).2
    · exact (metrics_unit_of_stages _).1
    · exact (metrics_unit_of_stages _).2
  · cases k
    case research =>
      simp only [ProductionEcosystem.execute_workflow, ProductionEcosystem.failOutcome]
      exact ⟨rfl, rfl, rfl, rfl, (metrics_unit_of_stages _).1, (metrics_unit_of_stages _).2⟩
    case analysis =>
      simp only [ProductionEcosystem.execute_workflow, ProductionEcosystem.failOutcome]
      dsimp only [findResearch, findAnalysis, findInnovation, findEnvironment, Option.bind]
      exact ⟨research_confidence_unit ap.dataEnv ap.llmR ap.tsR ap.elR task, rfl, rfl, rfl,
        (metrics_unit_of_stages _).1, (metrics_unit_of_stages _).2⟩
    case innovation =>
      simp only [ProductionEcosystem.execute_workflow, ProductionEcosystem.failOutcome]
      dsimp only [findResearch, findAnalysis, findInnovation, findEnvironment, Option.bind]
      exact ⟨research_confidence_unit ap.dataEnv ap.llmR ap.tsR ap.elR task,
        analysis_dq_unit ap.llmA ap.excA ap.tsA ap.elA task _, rfl, rfl,
        (metrics_unit_of_stages _).1, (metrics_unit_of_stages _).2⟩
    case environment =>
      simp only [ProductionEcosystem.execute_workflow, ProductionEcosystem.failOutcome]
      dsimp only [findResearch, findAnalysis, findInnovation, findEnvironment, Option.bind]
      exact ⟨research_confidence_unit ap.dataEnv ap.llmR ap.tsR ap.elR task,
        analysis_dq_unit ap.llmA ap.excA ap.tsA ap.elA task _, rfl, rfl,
        (metrics_unit_of_stages _).1, (metrics_unit_of_stages _).2⟩

/-! ### The confidence formula as the claim states it -/

/-- Follows the claim's wording: `min(0.25 × sourceTypesPresent, 0.75)
+ min(0.01 × totalItemCount, 0.25)`, clamped to 1.0, where
`sourceTypesPresent` is the number of the three source types with at
least one record and `totalItemCount` is the total number of records
across the non-empty source types. -/
def specConfidence (data : ResearchBundle) : ℚ :=
  let sourceTypesPresent : Nat :=
    (if 0 < data.papers.length then 1 else 0) +
    (if 0 < data.news.length then 1 else 0) +
    (if 0 < data.github.length then 1 else 0)
  let totalItemCount : Nat :=
    (if 0 < data.papers.length then data.papers.length else 0) +
    (if 0 < data.news.length then data.news.length else 0) +
    (if 0 < data.github.length then data.github.length else 0)
  min (min (0.25 * (sourceTypesPresent : ℚ)) 0.75 + min (0.01 * (totalItemCount : ℚ)) 0.25) 1

/-- C2: the Research stage's confidence score is exactly
`min(0.25 × sourceTypesPresent, 0.75) + min(0.01 × totalItemCount, 0.25)`
clamped to 1.0, with `sourceTypesPresent` the number of non-empty
source types and `totalItemCount` the records they contribute. -/
theorem confidence_matches_spec_formula (data : ResearchBundle) :
    ResearchAgent._calculate_confidence data = specConfidence data := by
  unfold ResearchAgent._calculate_confidence specConfidence
  obtain ⟨p, n, g⟩ := data
  dsimp only
  rw [pyMin_eq, pyMin_eq, pyMin_eq]
  cases p <;> cases n <;> cases g <;>
    simp [List.length_cons, Nat.succ_pos, mul_comm]

/-! ### Gathering with empty fetch results -/

theorem papers_fold_nil (arxiv : Str → Nat → Option (List RawPaper))
    (h : ∀ q n, arxiv q n = some []) (l : List Str) (acc : List Paper) :
    l.foldl (fun acc term => acc ++ DataAPIs.search_arxiv_papers arxiv term 5) acc = acc := by
  induction l generalizing acc with
  | nil => rfl
  | cons t ts ih =>
    rw [List.foldl_cons]
    have hs : DataAPIs.search_arxiv_papers arxiv t 5 = [] := by
      unfold DataAPIs.search_arxiv_papers
      rw [h t 5]
      rfl
    rw [hs, List.append_nil]
    exact ih acc

theorem rss_news_nil (feeds : List (Str × Option (List FeedEntry))) (q : Str)
    (h : ∀ p ∈ feeds, p.2 = some []) : DataAPIs._get_rss_news feeds q = [] := by
  unfold DataAPIs._get_rss_news
  suffices haux : ∀ (fs : List (Str × Option (List FeedEntry))),
      (∀ p ∈ fs, p.2 = some []) → ∀ acc : List NewsItem,
      fs.foldl
        (fun articles feed =>
          match feed.2 with
          | none => articles
          | some entries =>
            articles ++ (entries.filter (DataAPIs.rssEntryMatches q)).map fun e =>
              { title := e.title
                description := e.summary.take 300
                source := feed.1
                published := e.published
                url := e.link })
        acc = acc by
    exact haux feeds h []
  intro fs
  induction fs with
  | nil => intro _ _; rfl
  | cons f fs ih =>
    intro hf acc
    rw [List.foldl_cons]
    have hf2 : f.2 = some [] := hf f (List.mem_cons_self f fs)
    simp only [hf2, List.filter_nil, List.map_nil, List.append_nil]
    exact ih (fun p hp => hf p (List.mem_cons_of_mem f hp)) acc

/-- Concrete data-source capabilities: every fetch succeeds with no
records (the four feed names are the ones hard-coded in the source). -/
def envE : DataAPIsEnv :=
  { arxiv := fun _ _ => some []
    feeds := [(sToL "TechCrunch", some []), (sToL "BBC Technology", some []),
              (sToL "Wired", some []), (sToL "AI News", some [])]
    github := fun _ _ => some (200, []) }

/-- C3 counterexample: for the title and description both empty, no
domain keyword matches and the title has no word longer than 3
characters, so the derived term list is empty and the data gathering
raises an IndexError (modelled by the error value) instead of
returning a bundle. -/
theorem gather_raises_on_termless_input :
    (ResearchAgent._gather_research_data envE (sToL "") (sToL "")).toOption = none ∧
    ResearchAgent._extract_search_terms (sToL "") (sToL "") = [] := by
  exact ⟨by decide, by decide⟩

/-- C3 (amended): for every title and description whose derived
search-term list is non-empty, gathering with every external fetch
returning no records yields a bundle with all three sequences empty
and a non-negative confidence score; when the derived term list is
empty the operation raises an index error instead. -/
theorem gather_empty_fetches_ok (env : DataAPIsEnv) (title description : Str)
    (hterms : ResearchAgent._extract_search_terms title description ≠ [])
    (harxiv : ∀ q n, env.arxiv q n = some [])
    (hfeeds : ∀ p ∈ env.feeds, p.2 = some [])
    (hgithub : ∀ q n, env.github q n = some (200, [])) :
    ResearchAgent._gather_research_data env title description =
      Except.ok (ResearchBundle.mk [] [] []) ∧
    0 ≤ ResearchAgent._calculate_confidence (ResearchBundle.mk [] [] []) := by
  refine ⟨?_, (calculate_confidence_bounds _).1⟩
  unfold ResearchAgent._gather_research_data
  cases hts : ResearchAgent._extract_search_terms title description with
  | nil => exact absurd hts hterms
  | cons t0 rest =>
    dsimp only
    rw [papers_fold_nil env.arxiv harxiv (t0 :: rest) []]
    unfold DataAPIs.search_news
    rw [rss_news_nil env.feeds t0 hfeeds]
    unfold DataAPIs.search_github_repos
    rw [hgithub t0 8]
    rfl

/-- C3 witness: instantiates the amended statement at a concrete
title with derivable terms and the all-empty capabilities. -/
theorem gather_empty_fetches_ok_witness :
    ResearchAgent._gather_research_data envE (sToL "Quantum Systems") (sToL "") =
      Except.ok (ResearchBundle.mk [] [] []) ∧
    0 ≤ ResearchAgent._calculate_confidence (ResearchBundle.mk [] [] []) :=
  gather_empty_fetches_ok envE (sToL "Quantum Systems") (sToL "")
    (by decide) (fun _ _ => rfl) (by decide) (fun _ _ => rfl)

/-! ### Paper summary truncation -/

/-- Raw arXiv result with a 501-character summary. -/
def rawLong : RawPaper :=
  { title := [], authors := [], summary := List.replicate 501 'a'
    published := [], entry_id := [], categories := [] }

/-- Raw arXiv result with a 2-character summary. -/
def rawShort : RawPaper :=
  { title := [], authors := [], summary := sToL "hi"
    published := [], entry_id := [], categories := [] }

/-- arXiv capability returning one long and one short raw result. -/
def arxivCx : Str → Nat → Option (List RawPaper) := fun _ _ => some [rawLong, rawShort]

/-- The paper built from `rawLong` by `search_arxiv_papers`. -/
def paperLongOut : Paper :=
  { title := [], authors := [], summary := List.replicate 500 'a' ++ sToL "..."
    published := [], url := [], categories := [] }

/-- C4 counterexample: a 501-character raw summary yields a
503-character summary field (not at most 500), and the ellipsis is
appended even to a 2-character summary that does not exceed the cap. -/
theorem arxiv_summary_overlong_counterexample :
    (DataAPIs.search_arxiv_papers arxivCx (sToL "ai") 10).map (fun p => p.summary) =
      [List.replicate 500 'a' ++ sToL "...", sToL "hi..."] ∧
    (DataAPIs.search_arxiv_papers arxivCx (sToL "ai") 10).map (fun p => p.summary.length) =
      [503, 5] ∧
    ¬ (503 ≤ 500) :=
  ⟨by decide, by decide, by decide⟩

/-- C4 (amended): every paper record's summary equals the first 500
characters of the raw summary followed by the three-character ellipsis
marker; the ellipsis is appended unconditionally and the resulting
length is `min(len, 500) + 3`, hence at most 503. -/
theorem arxiv_summary_truncation (arxiv : Str → Nat → Option (List RawPaper))
    (query : Str) (max_results : Nat) (p : Paper)
    (hp : p ∈ DataAPIs.search_arxiv_papers arxiv query max_results) :
    ∃ r ∈ (arxiv query max_results).getD [],
      p.summary = r.summary.take 500 ++ sToL "..." ∧
      p.summary.length = min r.summary.length 500 + 3 ∧
      p.summary.length ≤ 503 := by
  unfold DataAPIs.search_arxiv_papers at hp
  cases h : arxiv query max_results with
  | none => rw [h] at hp; simp at hp
  | some results =>
    rw [h] at hp
    simp only [List.mem_map] at hp
    obtain ⟨r, hr, rfl⟩ := hp
    have h3 : (sToL "...").length = 3 := rfl
    refine ⟨r, by simpa, rfl, ?_, ?_⟩
    · dsimp only
      rw [List.length_append, List.length_take, h3]
      omega
    · dsimp only
      rw [List.length_append, List.length_take, h3]
      omega

/-- C4 witness: instantiates the amended statement at the long-summary
fixture. -/
theorem arxiv_summary_truncation_witness :
    ∃ r ∈ (arxivCx (sToL "ai") 10).getD [],
      paperLongOut.summary = r.summary.take 500 ++ sToL "..." ∧
      paperLongOut.summary.length = min r.summary.length 500 + 3 ∧
      paperLongOut.summary.length ≤ 503 :=
  arxiv_summary_truncation arxivCx (sToL "ai") 10 paperLongOut (by decide)

/-! ### Error-shaped stage results -/

/-- Task fixture with empty title and description (no derivable search
terms). -/
def taskT : ResearchTask := ProductionEcosystem.create_task 5 (sToL "") (sToL "")

/-- C5: for every stage agent and task, an internal failure of the try
block produces a stage result holding exactly agent id, task id, error
and timestamp — no processing time and no payload fields — and on
every path the error field and the payload fields are mutually
exclusive. -/
theorem stage_error_result_shape :
    (∀ (env : DataAPIsEnv) (llm : ResearchAgent.PromptData → Str) (ts : Nat) (el : ℚ)
       (task : ResearchTask) (e : Str),
       ResearchAgent._gather_research_data env task.title task.description = .error e →
       ResearchAgent.process_task env llm ts el task =
         { agent_id := sToL "research_agent", task_id := task.id, research_data := none,
            raw_data_sources := none, confidence_score := none, timestamp := ts,
            processing_time := none, data_sources_count := none, error := some e }) ∧
    (∀ (llm : AnalysisAgent.PromptData → Str) (ts : Nat) (el : ℚ) (task : ResearchTask)
       (ctx : Option AnalysisContext) (e : Str),
       AnalysisAgent.process_task llm (some e) ts el task ctx =
         { agent_id := sToL "analysis_agent", task_id := task.id, analysis_insights := none,
            data_quality_score := none, timestamp := ts, processing_time := none,
            error := some e }) ∧
    (∀ (llm : InnovationAgent.PromptData → Str) (ts : Nat) (el : ℚ) (task : ResearchTask)
       (ctx : Option InnovationContext) (e : Str),
       InnovationAgent.process_task llm (some e) ts el task ctx =
         { agent_id := sToL "innovation_agent", task_id := task.id, innovation_ideas := none,
            breakthrough_potential := none, commercial_viability := none, timestamp := ts,
            processing_time := none, error := some e }) ∧
    (∀ (llm : EnvironmentAgent.PromptData → Str) (ts : Nat) (el : ℚ) (task : ResearchTask)
       (ctx : Option EnvContext) (e : Str),
       EnvironmentAgent.process_task llm (some e) ts el task ctx =
         { agent_id := sToL "environment_agent", task_id := task.id,
            management_recommendations := none, system_health_score := none,
            optimization_potential := none, timestamp := ts, processing_time := none,
            error := some e }) ∧
    (∀ (env : DataAPIsEnv) (llm : ResearchAgent.PromptData → Str) (ts : Nat) (el : ℚ)
       (task : ResearchTask),
       (ResearchAgent.process_task env llm ts el task).error = none ∨
       ((ResearchAgent.process_task env llm ts el task).research_data = none ∧
        (ResearchAgent.process_task env llm ts el task).raw_data_sources = none ∧
        (ResearchAgent.process_task env llm ts el task).confidence_score = none ∧
        (ResearchAgent.process_task env llm ts el task).processing_time = none ∧
        (ResearchAgent.process_task env llm ts el task).data_sources_count = none)) ∧
    (∀ (llm : AnalysisAgent.PromptData → Str) (exc : Option Str) (ts : Nat) (el : ℚ)
       (task : ResearchTask) (ctx : Option AnalysisContext),
       (AnalysisAgent.process_task llm exc ts el task ctx).error = none ∨
       ((AnalysisAgent.process_task llm exc ts el task ctx).analysis_insights = none ∧
        (AnalysisAgent.process_task llm exc ts el task ctx).data_quality_score = none ∧
        (AnalysisAgent.process_task llm exc ts el task ctx).processing_time = none)) ∧
    (∀ (llm : InnovationAgent.PromptData → Str) (exc : Option Str) (ts : Nat) (el : ℚ)
       (task : ResearchTask) (ctx : Option InnovationContext),
       (InnovationAgent.process_task llm exc ts el task ctx).error = none ∨
       ((InnovationAgent.process_task llm exc ts el task ctx).innovation_ideas = none ∧
        (InnovationAgent.process_task llm exc ts el task ctx).breakthrough_potential = none ∧
        (InnovationAgent.process_task llm exc ts el task ctx).commercial_viability = none ∧
        (InnovationAgent.process_task llm exc ts el task ctx).processing_time = none)) ∧
    (∀ (llm : EnvironmentAgent.PromptData → Str) (exc : Option Str) (ts : Nat) (el : ℚ)
       (task : ResearchTask) (ctx : Option EnvContext),
       (EnvironmentAgent.process_task llm exc ts el task ctx).error = none ∨
       ((EnvironmentAgent.process_task llm exc ts el task ctx).management_recommendations = none ∧
        (EnvironmentAgent.process_task llm exc ts el task ctx).system_health_score = none ∧
        (EnvironmentAgent.process_task llm exc ts el task ctx).optimization_potential = none ∧
        (EnvironmentAgent.process_task llm exc ts el task ctx).processing_time = none)) := by
  refine ⟨?_, ?_, ?_, ?_, ?_, ?_, ?_, ?_⟩
  · intro env llm ts el task e h
    unfold ResearchAgent.process_task
    rw [h]
  · intro llm ts el task ctx e
    rfl
  · intro llm ts el task ctx e
    rfl
  · intro llm ts el task ctx e
    rfl
  · intro env llm ts el task
    unfold ResearchAgent.process_task
    cases h : ResearchAgent._gather_research_data env task.title task.description with
    | error e => exact Or.inr ⟨rfl, rfl, rfl, rfl, rfl⟩
    | ok b => exact Or.inl rfl
  · intro llm exc ts el task ctx
    cases exc with
    | some e => exact Or.inr ⟨rfl, rfl, rfl⟩
    | none => exact Or.inl rfl
  · intro llm exc ts el task ctx
    cases exc with
    | some e => exact Or.inr ⟨rfl, rfl, rfl, rfl⟩
    | none => exact Or.inl rfl
  · intro llm exc ts el task ctx
    cases exc with
    | some e => exact Or.inr ⟨rfl, rfl, rfl, rfl⟩
    | none => exact Or.inl rfl

/-- C5 witness: the research agent's genuine raise point (empty
derived term list) and an injected analysis exception, both at
concrete inputs. -/
theorem stage_error_result_shape_witness :
    ResearchAgent.process_task envE (fun _ => []) 3 7 taskT =
      { agent_id := sToL "research_agent", task_id := taskT.id, research_data := none,
         raw_data_sources := none, confidence_score := none, timestamp := 3,
         processing_time := none, data_sources_count := none,
         error := some (sToL "list index out of range") } ∧
    AnalysisAgent.process_task (fun _ => []) (some (sToL "boom")) 3 7 taskT none =
      { agent_id := sToL "analysis_agent", task_id := taskT.id, analysis_insights := none,
         data_quality_score := none, timestamp := 3, processing_time := none,
         error := some (sToL "boom") } :=
  ⟨stage_error_result_shape.1 envE (fun _ => []) 3 7 taskT
      (sToL "list index out of range") rfl,
    stage_error_result_shape.2.1 (fun _ => []) 3 7 taskT none (sToL "boom")⟩

/-! ### Search-term derivation rules -/

/-- Disjunction of the 34 keyword-containment checks of the ordered
rule list of `_extract_search_terms`, in rule order. -/
def matches_any_domain_rule (title description : Str) : Bool :=
  let ct := pyLower (title ++ sToL " " ++ description)
  (strContains ct (sToL "healthcare") || strContains ct (sToL "medical")) ||
  ((strContains ct (sToL "ai") || strContains ct (sToL "artificial intelligence")) ||
  ((strContains ct (sToL "generative") || strContains ct (sToL "gpt")) ||
  ((strContains ct (sToL "blockchain") || strContains ct (sToL "crypto")) ||
  ((strContains ct (sToL "sustainability") || strContains ct (sToL "climate")) ||
  ((strContains ct (sToL "robotics") || strContains ct (sToL "automation")) ||
  ((strContains ct (sToL "finance") || strContains ct (sToL "investment")) ||
  ((strContains ct (sToL "education") || strContains ct (sToL "learning")) ||
  ((strContains ct (sToL "energy") || strContains ct (sToL "renewable")) ||
  ((strContains ct (sToL "cybersecurity") || strContains ct (sToL "security")) ||
  ((strContains ct (sToL "transportation") || strContains ct (sToL "mobility")) ||
  ((strContains ct (sToL "agriculture") || strContains ct (sToL "farming")) ||
  ((strContains ct (sToL "entertainment") || strContains ct (sToL "media")) ||
  ((strContains ct (sToL "gaming") || strContains ct (sToL "game")) ||
  ((strContains ct (sToL "smart home") || strContains ct (sToL "iot")) ||
  ((strContains ct (sToL "supply chain") || strContains ct (sToL "logistics")) ||
  ((strContains ct (sToL "social media") || strContains ct (sToL "communication"))))))))))))))))))

/-- C6: search-term derivation is first-match-wins: any input whose
combined lowercased text contains "healthcare" or "medical" yields the
fixed healthcare term list, and an input matching none of the listed
domain keywords yields the first at most 3 whitespace-split title
words longer than 3 characters. -/
theorem search_term_rules_spec :
    (∀ title description : Str,
      (strContains (pyLower (title ++ sToL " " ++ description)) (sToL "healthcare") ||
       strContains (pyLower (title ++ sToL " " ++ description)) (sToL "medical")) = true →
      ResearchAgent._extract_search_terms title description =
        [sToL "artificial intelligence healthcare", sToL "machine learning medicine",
         sToL "AI diagnosis"]) ∧
    (∀ title description : Str,
      matches_any_domain_rule title description = false →
      ResearchAgent._extract_search_terms title description =
        ((pySplitWs title).filter fun word => 3 < word.length).take 3) := by
  constructor
  · intro title description h
    unfold ResearchAgent._extract_search_terms
    dsimp only
    rw [if_pos h]
  · intro title description h
    unfold matches_any_domain_rule at h
    dsimp only at h
    simp only [Bool.or_eq_false_iff] at h
    obtain ⟨g1, g2, g3, g4, g5, g6, g7, g8, g9, g10, g11, g12, g13, g14, g15, g16, g17⟩ := h
    unfold ResearchAgent._extract_search_terms
    dsimp only
    simp only [g1.1, g1.2, g2.1, g2.2, g3.1, g3.2, g4.1, g4.2, g5.1, g5.2, g6.1, g6.2, g7.1, g7.2, g8.1, g8.2, g9.1, g9.2, g10.1, g10.2, g11.1, g11.2, g12.1, g12.2, g13.1, g13.2, g14.1, g14.2, g15.1, g15.2, g16.1, g16.2, g17.1, g17.2]
    simp

/-- C6 witness: the healthcare rule fires on a "medical" input (in
preference to the later "ai" rule), and a keyword-free title falls
back to its long words. -/
theorem search_term_rules_spec_witness :
    ResearchAgent._extract_search_terms (sToL "AI medical tools") (sToL "") =
      [sToL "artificial intelligence healthcare", sToL "machine learning medicine",
       sToL "AI diagnosis"] ∧
    ResearchAgent._extract_search_terms (sToL "Quantum Systems") (sToL "") =
      [sToL "Quantum", sToL "Systems"] := by
  constructor
  · exact search_term_rules_spec.1 (sToL "AI medical tools") (sToL "") (by decide)
  · exact (search_term_rules_spec.2 (sToL "Quantum Systems") (sToL "") (by decide)).trans
      (by decide)

/-! ### A concrete fully-successful execution -/

/-- Concrete agent parameters: all-empty fetches, constant Gemini
responses, no injected exceptions, small wall-clock readings. -/
def ap0 : AgentParams :=
  { dataEnv := envE
    llmR := fun _ => []
    llmA := fun _ => []
    llmI := fun _ => []
    llmE := fun _ => []
    excA := none, excI := none, excE := none
    tsR := 1, tsA := 2, tsI := 3, tsE := 4
    elR := 1, elA := 1, elI := 1, elE := 1
    totalTime := 5 }

/-- Concrete task whose title derives fallback search terms. -/
def task0 : ResearchTask :=
  ProductionEcosystem.create_task 7 (sToL "Quantum Systems") (sToL "")

/-- The outcome of running the workflow on `ap0` and `task0`. -/
def out0 : WorkflowOutcome :=
  ProductionEcosystem.execute_workflow ap0 none true 0 9 task0 [] []

/-- C7: with no orchestration-level exception and all four stage
agents succeeding, the workflow result's stages mapping holds exactly
one stage result per stage, inserted in the order research, analysis,
innovation, environment; its aggregated metrics carry
workflow_success = true; each stage's context is assembled only from
the outputs of earlier stages; and no stage result carries an error. -/
theorem workflow_success_shape (ap : AgentParams) (saveOk : Bool) (wfS wfE : Nat)
    (task : ResearchTask) (completed : List ResearchTask)
    (db : List (Str × WorkflowResult))
    (hterms : ResearchAgent._extract_search_terms task.title task.description ≠ [])
    (hA : ap.excA = none) (hI : ap.excI = none) (hE : ap.excE = none) :
    (ProductionEcosystem.execute_workflow ap none saveOk wfS wfE task completed db).results.stages =
      [(sToL "research", .research (ProductionEcosystem.researchResultOf ap task)),
       (sToL "analysis", .analysis (ProductionEcosystem.analysisResultOf ap task)),
       (sToL "innovation", .innovation (ProductionEcosystem.innovationResultOf ap task)),
       (sToL "environment", .environment (ProductionEcosystem.environmentResultOf ap task))] ∧
    (ProductionEcosystem.execute_workflow ap none saveOk wfS wfE task completed db).results.stages.map
      Prod.fst = [sToL "research", sToL "analysis", sToL "innovation", sToL "environment"] ∧
    (ProductionEcosystem.execute_workflow ap none saveOk wfS wfE task completed
      db).results.performance_metrics.map (fun m => m.workflow_success) = some true ∧
    ProductionEcosystem.analysisResultOf ap task =
      AnalysisAgent.process_task ap.llmA ap.excA ap.tsA ap.elA task
        (some (ProductionEcosystem.analysisContextOf
          (ProductionEcosystem.researchResultOf ap task))) ∧
    ProductionEcosystem.innovationResultOf ap task =
      InnovationAgent.process_task ap.llmI ap.excI ap.tsI ap.elI task
        (some (ProductionEcosystem.innovationContextOf
          (ProductionEcosystem.researchResultOf ap task)
          (ProductionEcosystem.analysisResultOf ap task))) ∧
    ProductionEcosystem.environmentResultOf ap task =
      EnvironmentAgent.process_task ap.llmE ap.excE ap.tsE ap.elE task
        (some (ProductionEcosystem.envContextOf
          (ProductionEcosystem.researchResultOf ap task)
          (ProductionEcosystem.analysisResultOf ap task)
          (ProductionEcosystem.innovationResultOf ap task))) ∧
    (ProductionEcosystem.researchResultOf ap task).error = none ∧
    (ProductionEcosystem.analysisResultOf ap task).error = none ∧
    (ProductionEcosystem.innovationResultOf ap task).error = none ∧
    (ProductionEcosystem.environmentResultOf ap task).error = none := by
  obtain ⟨b, hb⟩ : ∃ b, ResearchAgent._gather_research_data ap.dataEnv task.title
      task.description = .ok b := by
    unfold ResearchAgent._gather_research_data
    cases hts : ResearchAgent._extract_search_terms task.title task.description with
    | nil => exact absurd hts hterms
    | cons t0 rest => exact ⟨_, rfl⟩
  refine ⟨rfl, rfl, rfl, rfl, rfl, rfl, ?_, ?_, ?_, ?_⟩
  · unfold ProductionEcosystem.researchResultOf ResearchAgent.process_task
    rw [hb]
  · unfold ProductionEcosystem.analysisResultOf AnalysisAgent.process_task
    rw [hA]
  · unfold ProductionEcosystem.innovationResultOf InnovationAgent.process_task
    rw [hI]
  · unfold ProductionEcosystem.environmentResultOf EnvironmentAgent.process_task
    rw [hE]

/-- C7 witness: the concrete all-successful execution. -/
theorem workflow_success_shape_witness :
    (ProductionEcosystem.execute_workflow ap0 none true 0 9 task0 [] []).results.stages.map
      Prod.fst = [sToL "research", sToL "analysis", sToL "innovation", sToL "environment"] ∧
    (ProductionEcosystem.execute_workflow ap0 none true 0 9 task0 [] []).results.performance_metrics.map
      (fun m => m.workflow_success) = some true := by
  have h := workflow_success_shape ap0 true 0 9 task0 [] [] (by decide) rfl rfl rfl
  exact ⟨h.2.1, h.2.2.1⟩

/-! ### The health formula as the claim states it -/

/-- Follows C8's wording: the sum of the processing times of the
research, analysis and innovation stage results of the context. -/
def claimTotalElapsed (ctx : EnvContext) : ℚ :=
  (ctx.research.map (fun r => r.processing_time.getD 0)).getD 0 +
  (ctx.analysis.map (fun r => r.processing_time.getD 0)).getD 0 +
  (ctx.innovation.map (fun r => r.processing_time.getD 0)).getD 0

/-- Follows C8's wording: the number of the three prior stage results
carrying an error field. -/
def claimErrorCount (ctx : EnvContext) : Nat :=
  (if ((ctx.research.map (fun r => r.error)).getD none).isSome then 1 else 0) +
  (if ((ctx.analysis.map (fun r => r.error)).getD none).isSome then 1 else 0) +
  (if ((ctx.innovation.map (fun r => r.error)).getD none).isSome then 1 else 0)

/-- The health value exactly as C8 states it:
`1.0 − max(0, totalElapsed − 60) × 0.01 − errorCount × 0.1`, floored
at 0.5. -/
def claimHealthScore (ctx : EnvContext) : ℚ :=
  pyMax (1 - pyMax 0 (claimTotalElapsed ctx - 60) * 0.01 -
    (claimErrorCount ctx : ℚ) * 0.1) 0.5

/-- Successful research result with a processing time of 61.25 s. -/
def rres8 : ResearchResult :=
  { agent_id := sToL "research_agent", task_id := sToL "t", research_data := some [],
    raw_data_sources := some (ResearchBundle.mk [] [] []), confidence_score := some 0,
    timestamp := 0, processing_time := some (245/4), data_sources_count := some (0, 0, 0),
    error := none }

/-- Failed analysis result whose error field holds the empty string. -/
def ares8 : AnalysisResult :=
  { agent_id := sToL "analysis_agent", task_id := sToL "t", analysis_insights := none,
    data_quality_score := none, timestamp := 0, processing_time := none, error := some [] }

/-- Successful innovation result with zero processing time. -/
def ires8 : InnovationResult :=
  { agent_id := sToL "innovation_agent", task_id := sToL "t", innovation_ideas := some [],
    breakthrough_potential := some 0.85, commercial_viability := some 0.78, timestamp := 0,
    processing_time := some 0, error := none }

/-- Environment context built from the three fixtures above. -/
def ctx8 : EnvContext :=
  { research := some rres8, analysis := some ares8, innovation := some ires8,
    data_quality_score := none }

/-- C8 counterexample: at `ctx8` (total elapsed 61.25 s and one prior
stage carrying an empty-string error) the stored health score is 0.99
— the value is rounded to two decimals and the empty-string error is
not counted by the code's truthiness check — while the claim's formula
yields 0.8875. -/
theorem health_score_claim_counterexample :
    (EnvironmentAgent._gather_system_metrics (some ctx8)).health_score = 99/100 ∧
    claimHealthScore ctx8 = 71/80 ∧
    ((99 : ℚ)/100) ≠ 71/80 :=
  ⟨by decide, by decide, by decide⟩

/-- C8 (amended): the stored health score equals the claim's formula
rounded half-to-even to two decimal places, with errorCount counting
only the prior stage results whose error value is present and
non-empty (the code's truthiness check). -/
theorem health_score_rounded_formula (context : Option EnvContext) :
    (EnvironmentAgent._gather_system_metrics context).health_score =
      pyRound2 (pyMax (1 - pyMax 0 (EnvironmentAgent.total_time_of context - 60) * 0.01 -
        (EnvironmentAgent.error_count_of context : ℚ) * 0.1) 0.5) := by
  unfold EnvironmentAgent._gather_system_metrics
  dsimp only
  have harg : (if 60 < EnvironmentAgent.total_time_of context then
      1 - (EnvironmentAgent.total_time_of context - 60) * 0.01 else 1) =
      1 - pyMax 0 (EnvironmentAgent.total_time_of context - 60) * 0.01 := by
    by_cases h : 60 < EnvironmentAgent.total_time_of context
    · rw [if_pos h, pyMax_eq, max_eq_right (by linarith : (0 : ℚ) ≤
        EnvironmentAgent.total_time_of context - 60)]
    · rw [if_neg h, pyMax_eq]
      push_neg at h
      rw [max_eq_left (by linarith)]
      ring
  rw [harg]

/-! ### The optimization score never reads the Analysis quality -/

theorem optimization_of_env_context (r : ResearchResult) (a : AnalysisResult)
    (i : InnovationResult) :
    (EnvironmentAgent._gather_system_metrics
      (some (ProductionEcosystem.envContextOf r a i))).optimization_score = 9/10 := by
  unfold EnvironmentAgent._gather_system_metrics EnvironmentAgent.data_quality_of
    ProductionEcosystem.envContextOf
  dsimp only
  decide

/-- C9 counterexample: in the concrete execution `out0` the Analysis
stage's data-quality score is 0, yet the Environment stage's
optimization score is 0.9, not `min(0 + 0.1, 1.0)`. -/
theorem optimization_ignores_analysis_quality :
    (findAnalysis out0.results.stages).map (fun r => r.data_quality_score) =
      some (some 0) ∧
    (findEnvironment out0.results.stages).map (fun r => r.optimization_potential) =
      some (some (9/10)) ∧
    ((9 : ℚ)/10) ≠ pyMin (0 + 0.1) 1 :=
  ⟨by decide, by decide, by decide⟩

/-- C9 (amended): the optimization score is
`min(dq + 0.1, 1.0)` for `dq = context.get('data_quality_score', 0.8)`;
the workflow's environment context never carries that key, so every
execution whose Environment stage does not fail stores optimization =
0.9, independent of the Analysis stage's data-quality score. -/
theorem optimization_score_constant (ap : AgentParams) (saveOk : Bool) (wfS wfE : Nat)
    (task : ResearchTask) (completed : List ResearchTask)
    (db : List (Str × WorkflowResult)) (hE : ap.excE = none) :
    (findEnvironment (ProductionEcosystem.execute_workflow ap none saveOk wfS wfE task
      completed db).results.stages).map (fun r => r.optimization_potential) =
      some (some (9/10)) := by
  simp only [ProductionEcosystem.execute_workflow]
  dsimp only [findEnvironment]
  unfold ProductionEcosystem.environmentResultOf EnvironmentAgent.process_task
  rw [hE]
  dsimp only [Option.map]
  rw [optimization_of_env_context]

/-- C9 witness: the amended statement at the concrete execution. -/
theorem optimization_score_constant_witness :
    (findEnvironment (ProductionEcosystem.execute_workflow ap0 none true 0 9 task0
      [] []).results.stages).map (fun r => r.optimization_potential) =
      some (some (9/10)) :=
  optimization_score_constant ap0 true 0 9 task0 [] [] rfl

/-! ### Orchestration-level failure -/

/-- C10: when an uncaught orchestration-level exception is raised
between stages, execute_workflow still returns a result whose
workflow_success flag is false with the error string, its
performance_metrics mapping stays empty, and the passed-in task (still
pending with empty results), the completed-task history and the
database rows are left untouched. -/
theorem workflow_orchestration_failure (ap : AgentParams) (k : WorkflowStage) (e : Str)
    (saveOk : Bool) (wfS wfE : Nat) (task : ResearchTask)
    (completed : List ResearchTask) (db : List (Str × WorkflowResult))
    (hst : task.status = sToL "pending") (hres : task.results = none) :
    (ProductionEcosystem.execute_workflow ap (some (k, e)) saveOk wfS wfE task completed
      db).results.workflow_success = some false ∧
    (ProductionEcosystem.execute_workflow ap (some (k, e)) saveOk wfS wfE task completed
      db).results.error = some e ∧
    (ProductionEcosystem.execute_workflow ap (some (k, e)) saveOk wfS wfE task completed
      db).results.performance_metrics = none ∧
    (ProductionEcosystem.execute_workflow ap (some (k, e)) saveOk wfS wfE task completed
      db).task = task ∧
    (ProductionEcosystem.execute_workflow ap (some (k, e)) saveOk wfS wfE task completed
      db).task.status = sToL "pending" ∧
    (ProductionEcosystem.execute_workflow ap (some (k, e)) saveOk wfS wfE task completed
      db).task.results = none ∧
    (ProductionEcosystem.execute_workflow ap (some (k, e)) saveOk wfS wfE task completed
      db).completed_tasks = completed ∧
    (ProductionEcosystem.execute_workflow ap (some (k, e)) saveOk wfS wfE task completed
      db).db = db := by
  cases k <;> exact ⟨rfl, rfl, rfl, rfl, hst, hres, rfl, rfl⟩

/-- C10 witness: an exception injected before the innovation stage of
the concrete execution. -/
theorem workflow_orchestration_failure_witness :
    (ProductionEcosystem.execute_workflow ap0 (some (WorkflowStage.innovation, sToL "boom"))
      true 0 9 task0 [] []).results.workflow_success = some false ∧
    (ProductionEcosystem.execute_workflow ap0 (some (WorkflowStage.innovation, sToL "boom"))
      true 0 9 task0 [] []).task = task0 ∧
    (ProductionEcosystem.execute_workflow ap0 (some (WorkflowStage.innovation, sToL "boom"))
      true 0 9 task0 [] []).db = ([] : List (Str × WorkflowResult)) := by
  have h := workflow_orchestration_failure ap0 .innovation (sToL "boom") true 0 9 task0
    [] [] rfl rfl
  exact ⟨h.1, h.2.2.2.1, h.2.2.2.2.2.2.2⟩

end FinalProduction
